import Mathlib

/-!
Verification of the AI-Video-Creator request-to-artifact pipeline.

Shallow embedding of:
  * the shared zod request schema (`generateScriptRequestSchema`, in
    src/netlify/functions/debug.ts and duplicated in src/unnamed/part_001);
  * the two copies of `generateVideoScript` (server copy in
    src/unnamed/part_000, serverless copy in src/unnamed/part_001),
    with the backend (Gemini) modelled as an oracle value and
    JSON.parse of the returned text modelled as part of that oracle;
  * `MemStorage` (src/unnamed/part_000, second half), the JS `Map`
    modelled as an insertion-ordered association list;
  * the express routes (src/server/routes.ts) and the netlify handler
    (src/unnamed/part_001).

Nondeterministic inputs of the real code (the generated UUID, the clock,
the environment variable, the backend response) are passed explicitly.
-/

/-- Substring test helper: does the list start with the pattern? -/
def startsWithChars : List Char → List Char → Bool
  | _, [] => true
  | [], _ :: _ => false
  | c :: cs, p :: ps => c = p && startsWithChars cs ps

/-- Substring test helper: does some suffix of the list start with the pattern? -/
def hasSubChars (pat : List Char) : List Char → Bool
  | [] => startsWithChars [] pat
  | c :: cs => startsWithChars (c :: cs) pat || hasSubChars pat cs

/-- Model of JavaScript `String.prototype.includes`: `pat` occurs in `s`. -/
def includesSub (s pat : String) : Bool :=
  hasSubChars pat.toList s.toList

/-! ## Data model (src/netlify/functions/debug.ts, second half = shared/schema) -/

/-- Normalized request after zod parsing (`GenerateScriptRequest`). -/
structure GenerateScriptRequest where
  topic : String
  videoLength : String
  contentStyle : String
  targetAudience : Option String
deriving Repr, DecidableEq

/-- Raw (pre-validation) request body: each field may be absent. -/
structure RawRequest where
  topic : Option String
  videoLength : Option String
  contentStyle : Option String
  targetAudience : Option String
deriving Repr, DecidableEq

/-- One zod issue: the offending field path and its message. -/
structure ZodIssue where
  path : String
  message : String
deriving Repr, DecidableEq

/-- Model of `generateScriptRequestSchema.parse`:
`topic: z.string().min(1, "Topic is required")`,
`videoLength: z.string().default("1-2 minutes")`,
`contentStyle: z.string().default("Educational")`,
`targetAudience: z.string().optional()`.
zod defaults apply only when the field is absent; `.min(1)` counts
code units and performs no trimming. -/
def generateScriptRequestSchemaParse (raw : RawRequest) :
    Except ZodIssue GenerateScriptRequest :=
  match raw.topic with
  | none => .error ⟨ "topic", "Required"⟩
  | some t =>
      if t.length < 1 then .error ⟨ "topic", "Topic is required"⟩
      else .ok ⟨t, raw.videoLength.getD "1-2 minutes",
                raw.contentStyle.getD "Educational", raw.targetAudience⟩

/-! Shape of the backend's JSON payload (`VideoScriptContent`).  The TS
code casts `JSON.parse` output without checking, so at the top level each
of the five fields may be absent in the runtime value; the inner blocks
are carried opaquely. -/

structure ScriptSections where
  hook : String
  introduction : String
  mainContent : String
  callToAction : String
deriving Repr, DecidableEq

structure Scene where
  id : Int
  title : String
  timing : String
  description : String
  tags : List String
deriving Repr, DecidableEq

structure VoiceCharacteristics where
  tone : String
  pace : String
  style : String
  enunciation : String
deriving Repr, DecidableEq

structure VoiceTechnical where
  audioFormat : String
  noiseReduction : Bool
  normalization : String
  pauses : String
deriving Repr, DecidableEq

structure ElevenLabsSettings where
  voiceStyle : String
  stability : Rat
  clarity : Rat
  exaggeration : Rat
deriving Repr, DecidableEq

structure VoiceoverBlock where
  characteristics : VoiceCharacteristics
  technical : VoiceTechnical
  elevenLabsSettings : ElevenLabsSettings
deriving Repr, DecidableEq

structure AudioLevels where
  backgroundMusic : String
  voiceover : String
  soundEffects : String
  ducking : Bool
deriving Repr, DecidableEq

structure MusicBlock where
  mood : String
  description : String
  bpm : String
  genre : String
  audioLevels : AudioLevels
  suggestedTracks : List String
deriving Repr, DecidableEq

/-- Runtime value obtained from `JSON.parse(content) as VideoScriptContent`:
every top-level field may be missing (`none` = absent or null). -/
structure ParsedContent where
  title : Option String
  script : Option ScriptSections
  scenes : Option (List Scene)
  voiceover : Option VoiceoverBlock
  music : Option MusicBlock
deriving Repr, DecidableEq

/-- JS truthiness of an optional string: absent, null and `""` are falsy. -/
def truthyStr : Option String → Bool
  | none => false
  | some s => !(s = "")

/-- The manual structure check in both copies of `generateVideoScript`:
`if (!parsedContent.title || !parsedContent.script || !parsedContent.scenes)`.
An object or array field is truthy whenever present, so only presence is
tested for `script` and `scenes`; `voiceover` and `music` are not examined. -/
def validStructure (p : ParsedContent) : Bool :=
  truthyStr p.title && p.script.isSome && p.scenes.isSome

/-! ## GenerationClient (the two copies of `generateVideoScript`) -/

/-- The text the backend call produced, as seen after `response.text` and
`JSON.parse`: falsy text, text that does not parse as JSON (with the
`SyntaxError` message), or text that parses to a payload. -/
inductive BackendText where
  | empty : BackendText
  | unparseable (syntaxErrMsg : String) : BackendText
  | parsed (p : ParsedContent) : BackendText
deriving Repr, DecidableEq

/-- Behaviour of one `ai.models.generateContent` call: either the promise
rejects with an error message, or it resolves and yields `BackendText`. -/
inductive BackendBehavior where
  | throws (msg : String) : BackendBehavior
  | returns (t : BackendText) : BackendBehavior
deriving Repr, DecidableEq

/-- The body of the `try` block after the backend call: empty text throws
`No content generated from Gemini`; a `JSON.parse` failure propagates its
`SyntaxError` message; a payload failing the structure check throws
`Invalid content structure from Gemini`. -/
def innerGenerate (backend : BackendBehavior) : Except String ParsedContent :=
  match backend with
  | .throws msg => .error msg
  | .returns .empty => .error "No content generated from Gemini"
  | .returns (.unparseable m) => .error m
  | .returns (.parsed p) =>
      if validStructure p then .ok p
      else .error "Invalid content structure from Gemini"

/-- The `catch` block shared by both copies: substring sniffing on the
error message, falling through to the generic failure message. -/
def classifyGeminiError (msg : String) : String :=
  if includesSub msg "API key" then "Gemini API key not configured"
  else if includesSub msg "quota" || includesSub msg "billing" then
    "Gemini API quota exceeded. Please check your billing."
  else if includesSub msg "rate limit" then
    "Gemini API rate limit exceeded. Please try again in a moment."
  else "Failed to generate video script. Please try again."

deriving instance DecidableEq for Except

/-- Result of one `generateVideoScript` invocation together with how many
`ai.models.generateContent` calls it issued. -/
structure GenOutcome where
  result : Except String ParsedContent
  backendCalls : Nat
deriving Repr, DecidableEq

/-- Server copy (src/unnamed/part_000).  The module builds the client at
load time with `apiKey: process.env.GEMINI_API_KEY || ""` and
`generateVideoScript` performs no credential check: it always issues the
backend call, whatever `apiKey` is, then filters errors through the catch. -/
def generateVideoScriptServer (_request : GenerateScriptRequest)
    (_apiKey : Option String) (backend : BackendBehavior) : GenOutcome :=
  ⟨match innerGenerate backend with
    | .ok p => .ok p
    | .error m => .error (classifyGeminiError m), 1⟩

/-- JS falsiness of the `GEMINI_API_KEY` environment variable:
absent or set to the empty string. -/
def keyFalsy : Option String → Bool
  | none => true
  | some s => s = ""

/-- Serverless copy (src/unnamed/part_001).  `getGeminiClient` throws
`Gemini API key not configured.` when the env var is falsy, before any
backend call; that throw is classified by the same catch block.
Otherwise the behaviour matches the server copy. -/
def generateVideoScriptServerless (_request : GenerateScriptRequest)
    (apiKey : Option String) (backend : BackendBehavior) : GenOutcome :=
  if keyFalsy apiKey then
    ⟨.error (classifyGeminiError "Gemini API key not configured."), 0⟩
  else
    ⟨match innerGenerate backend with
      | .ok p => .ok p
      | .error m => .error (classifyGeminiError m), 1⟩

/-! ## ArtifactStore (`MemStorage`, src/unnamed/part_000 second half) -/

/-- The row type inserted by callers (`InsertVideoScript`): `topic` is
required, the rest nullable. -/
structure InsertVideoScript where
  topic : String
  videoLength : Option String
  contentStyle : Option String
  targetAudience : Option String
  generatedContent : Option ParsedContent
deriving Repr, DecidableEq

/-- The persisted record (`VideoScript`).  `createdAt` is kept optional to
match the nullable column type guarded by `?.` in the sort comparator;
the creation path always sets it.  Timestamps are epoch milliseconds. -/
structure VideoScript where
  id : String
  topic : String
  videoLength : String
  contentStyle : String
  targetAudience : Option String
  generatedContent : Option ParsedContent
  createdAt : Option Nat
deriving Repr, DecidableEq

/-- A JS `Map` keyed by id, as an insertion-ordered association list. -/
structure MemStorage where
  videoScripts : List (String × VideoScript)
deriving Repr, DecidableEq

def emptyStorage : MemStorage := ⟨[]⟩

/-- `Map.prototype.set`: replace in place if the key exists, else append. -/
def mapSet : List (String × VideoScript) → String → VideoScript →
    List (String × VideoScript)
  | [], k, v => [(k, v)]
  | (k0, v0) :: rest, k, v =>
      if k0 = k then (k, v) :: rest else (k0, v0) :: mapSet rest k v

/-- `Map.prototype.get`. -/
def mapGet : List (String × VideoScript) → String → Option VideoScript
  | [], _ => none
  | (k0, v0) :: rest, k => if k0 = k then some v0 else mapGet rest k

/-- `Map.prototype.values()`, in insertion order. -/
def mapValues (m : List (String × VideoScript)) : List VideoScript :=
  m.map Prod.snd

/-- JS `x || "d"` on a nullable string: null/undefined and `""` give the default. -/
def orDefault (v : Option String) (d : String) : String :=
  match v with
  | none => d
  | some s => if s = "" then d else s

/-- JS `x || null` on a nullable string: the empty string collapses to null. -/
def orNull (v : Option String) : Option String :=
  match v with
  | none => none
  | some s => if s = "" then none else some s

/-- `MemStorage.createVideoScript`.  The fresh `randomUUID()` and the
clock reading `new Date()` are passed explicitly. -/
def createVideoScript (uuid : String) (now : Nat) (ins : InsertVideoScript)
    (st : MemStorage) : VideoScript × MemStorage :=
  let script : VideoScript :=
    ⟨uuid, ins.topic, orDefault ins.videoLength "1-2 minutes",
     orDefault ins.contentStyle "Educational", orNull ins.targetAudience,
     ins.generatedContent, some now⟩
  (script, ⟨mapSet st.videoScripts uuid script⟩)

/-- `MemStorage.getVideoScript`. -/
def getVideoScript (st : MemStorage) (id : String) : Option VideoScript :=
  mapGet st.videoScripts id

/-- The sort key used by `getRecentVideoScripts`:
`record.createdAt?.getTime() || 0`. -/
def sortKey (v : VideoScript) : Nat :=
  v.createdAt.getD 0

/-- The comparator `(a, b) => key b - key a` orders records by descending
key; `Array.prototype.sort` is stable, modelled by insertion sort. -/
def newestFirstRel (a b : VideoScript) : Prop :=
  sortKey b ≤ sortKey a

instance : DecidableRel newestFirstRel := fun a b =>
  inferInstanceAs (Decidable (sortKey b ≤ sortKey a))

instance : IsTotal VideoScript newestFirstRel :=
  ⟨fun a b => Nat.le_total (sortKey b) (sortKey a)⟩

instance : IsTrans VideoScript newestFirstRel :=
  ⟨fun _ _ _ h1 h2 => Nat.le_trans h2 h1⟩

/-- `Array.prototype.slice(0, end)`: a negative end counts from the back,
clamped at zero. -/
def jsSlice {α : Type} (l : List α) (endIdx : Int) : List α :=
  if 0 ≤ endIdx then l.take endIdx.toNat
  else l.take (l.length - (-endIdx).toNat)

/-- `MemStorage.getRecentVideoScripts(limit)`: values, sorted newest
creation time first, truncated to `limit`. -/
def getRecentVideoScripts (st : MemStorage) (limit : Int) : List VideoScript :=
  jsSlice (List.insertionSort newestFirstRel (mapValues st.videoScripts)) limit

/-- The declared default `limit: number = 10`. -/
def getRecentVideoScriptsDefault (st : MemStorage) : List VideoScript :=
  getRecentVideoScripts st 10

/-! ## Express routes (src/server/routes.ts) -/

/-- Responses of `POST /api/generate-script`. -/
inductive PostResponse where
  | success (id : String) (content : ParsedContent) : PostResponse
  | invalidRequest (issue : ZodIssue) : PostResponse
  | authFailure : PostResponse
  | genericFailure : PostResponse
deriving Repr, DecidableEq

/-- Route outcome: the HTTP response, the storage after the call, and how
many backend calls were issued. -/
structure PostResult where
  response : PostResponse
  store : MemStorage
  backendCalls : Nat
deriving Repr, DecidableEq

/-- The `POST /api/generate-script` handler: zod-parse the body (ZodError
gives 400), call the server copy of `generateVideoScript` (an error whose
message mentions `API key` gives 401, anything else 500), then store the
artifact and answer with the stored record's id and the content. -/
def postGenerateScript (uuid : String) (now : Nat) (apiKey : Option String)
    (backend : BackendBehavior) (raw : RawRequest) (st : MemStorage) : PostResult :=
  match generateScriptRequestSchemaParse raw with
  | .error issue => ⟨.invalidRequest issue, st, 0⟩
  | .ok data =>
      let gen := generateVideoScriptServer data apiKey backend
      match gen.result with
      | .error msg =>
          if includesSub msg "API key" then ⟨.authFailure, st, gen.backendCalls⟩
          else ⟨.genericFailure, st, gen.backendCalls⟩
      | .ok content =>
          let created := createVideoScript uuid now
            ⟨data.topic, some data.videoLength, some data.contentStyle,
             data.targetAudience, some content⟩ st
          ⟨.success created.1.id content, created.2, gen.backendCalls⟩

/-! The two read routes. -/

/-- `GET /api/video-scripts/:id`: the stored record, or a 404 (`none`). -/
def getVideoScriptRoute (st : MemStorage) (id : String) : Option VideoScript :=
  getVideoScript st id

/-- Model of JS `parseInt(str)` (radix unset): skip whitespace, optional
sign, a `0x`/`0X` prefix selects base 16, then the longest digit prefix;
no digits means `NaN` (`none`). -/
def skipWs : List Char → List Char
  | [] => []
  | c :: rest =>
      if c = ' ' || c = '\t' || c = '\n' || c = '\r' then skipWs rest
      else c :: rest

def hexDigitVal : Char → Option Nat
  | c =>
      if '0' ≤ c ∧ c ≤ '9' then some (c.toNat - '0'.toNat)
      else if 'a' ≤ c ∧ c ≤ 'f' then some (c.toNat - 'a'.toNat + 10)
      else if 'A' ≤ c ∧ c ≤ 'F' then some (c.toNat - 'A'.toNat + 10)
      else none

def decDigitVal : Char → Option Nat
  | c => if '0' ≤ c ∧ c ≤ '9' then some (c.toNat - '0'.toNat) else none

def takeDigits (dv : Char → Option Nat) : List Char → List Nat
  | [] => []
  | c :: rest =>
      match dv c with
      | some d => d :: takeDigits dv rest
      | none => []

def digitsToNat (base : Nat) (ds : List Nat) : Nat :=
  ds.foldl (fun acc d => acc * base + d) 0

def parseIntStr (str : String) : Option Int :=
  let cs := skipWs str.toList
  let signAndRest : Bool × List Char :=
    match cs with
    | '-' :: rest => (true, rest)
    | '+' :: rest => (false, rest)
    | _ => (false, cs)
  let baseAndDigits : Nat × List Char :=
    match signAndRest.2 with
    | '0' :: 'x' :: rest => (16, rest)
    | '0' :: 'X' :: rest => (16, rest)
    | l => (10, l)
  let dv := if baseAndDigits.1 = 16 then hexDigitVal else decDigitVal
  match takeDigits dv baseAndDigits.2 with
  | [] => none
  | ds =>
      let n : Int := Int.ofNat (digitsToNat baseAndDigits.1 ds)
      some (if signAndRest.1 then -n else n)

/-- `GET /api/video-scripts`:
`const limit = parseInt(req.query.limit as string) || 10` — an absent
parameter reaches `parseInt` as `undefined` (hence `NaN`), and both `NaN`
and `0` are falsy, so they fall back to 10. -/
def listVideoScriptsRoute (st : MemStorage) (limitQuery : Option String) :
    List VideoScript :=
  let parsed : Option Int :=
    match limitQuery with
    | none => none
    | some s => parseIntStr s
  let limit : Int :=
    match parsed with
    | none => 10
    | some n => if n = 0 then 10 else n
  getRecentVideoScripts st limit

/-! ## Netlify handler (src/unnamed/part_001) -/

/-- The request body as the handler sees it: absent, present but not
JSON-parseable (with the `SyntaxError` message), or parsed into fields. -/
inductive NetlifyBody where
  | absent : NetlifyBody
  | unparseable (msg : String) : NetlifyBody
  | parsed (raw : RawRequest) : NetlifyBody
deriving Repr, DecidableEq

/-- Responses of the netlify `generate-script` function. -/
inductive NetlifyResponse where
  | preflightOk : NetlifyResponse
  | methodNotAllowed : NetlifyResponse
  | missingKey : NetlifyResponse
  | bodyRequired : NetlifyResponse
  | success (id : String) (content : ParsedContent) : NetlifyResponse
  | invalidRequest (issue : ZodIssue) : NetlifyResponse
  | authFailure : NetlifyResponse
  | genericFailure (msg : String) : NetlifyResponse
deriving Repr, DecidableEq

/-- The netlify handler.  Note that the serverless module defines no
storage at all: a success answers with the synthetic id
`script-` followed by `Date.now()` and nothing is persisted. -/
def netlifyHandler (now : Nat) (apiKey : Option String)
    (backend : BackendBehavior) (httpMethod : String) (body : NetlifyBody) :
    NetlifyResponse :=
  if httpMethod = "OPTIONS" then .preflightOk
  else if httpMethod ≠ "POST" then .methodNotAllowed
  else if keyFalsy apiKey then .missingKey
  else
    match body with
    | .absent => .bodyRequired
    | .unparseable m =>
        if includesSub m "API key" then .authFailure else .genericFailure m
    | .parsed raw =>
        match generateScriptRequestSchemaParse raw with
        | .error issue => .invalidRequest issue
        | .ok data =>
            match (generateVideoScriptServerless data apiKey backend).result with
            | .error msg =>
                if includesSub msg "API key" then .authFailure
                else .genericFailure msg
            | .ok content => .success ("script-" ++ toString now) content

/-! ## Concrete fixtures used by witnesses and counterexamples -/

def sampleRequest : GenerateScriptRequest :=
  ⟨ "Cats", "1-2 minutes", "Educational", none⟩

def sampleScript : ScriptSections :=
  ⟨ "Watch this!", "Welcome back.", "Cats are great.", "Subscribe."⟩

def sampleScene : Scene :=
  ⟨1, "Opening", "0-10 seconds", "Close-up of a cat", [ "cat", "close-up"]⟩

def sampleVoiceover : VoiceoverBlock :=
  ⟨⟨ "warm", "medium", "conversational", "clear"⟩,
   ⟨ "mp3", true, "-14 LUFS", "natural"⟩,
   ⟨ "narration", (0.75 : Rat), (0.85 : Rat), (0.6 : Rat)⟩⟩

def sampleMusic : MusicBlock :=
  ⟨ "upbeat", "light and playful", "120", "pop",
   ⟨ "low", "high", "low", true⟩, [ "Sunny Days"]⟩

/-- A fully conforming payload. -/
def sampleFullContent : ParsedContent :=
  ⟨some "Cat Facts", some sampleScript, some [sampleScene],
   some sampleVoiceover, some sampleMusic⟩

/-- A payload with `title`, `script`, `scenes` present but no `voiceover`
and no `music`. -/
def sampleNoVoiceMusic : ParsedContent :=
  ⟨some "Cat Facts", some sampleScript, some [sampleScene], none, none⟩

/-- A payload with every top-level field absent. -/
def emptyContent : ParsedContent :=
  ⟨none, none, none, none, none⟩

/-- A raw request carrying only a topic. -/
def sampleRawTopicOnly : RawRequest :=
  ⟨some "Cats", none, none, none⟩

/-- A raw request whose topic is a single space (whitespace-only). -/
def whitespaceRaw : RawRequest :=
  ⟨some " ", none, none, none⟩

/-! ## Helper lemmas -/

theorem mapGet_mapSet (m : List (String × VideoScript)) (k : String)
    (v : VideoScript) : mapGet (mapSet m k v) k = some v := by
  induction m with
  | nil => simp [mapSet, mapGet]
  | cons hd tl ih =>
      obtain ⟨k0, v0⟩ := hd
      by_cases h : k0 = k
      · simp [mapSet, mapGet, h]
      · simp [mapSet, mapGet, h, ih]

theorem jsSlice_natCast {α : Type} (l : List α) (N : Nat) :
    jsSlice l (N : Int) = l.take N := by
  simp [jsSlice]

/-- The manual throw for an invalid structure is re-wrapped by the catch
block into the generic failure message. -/
theorem classify_invalid_structure :
    classifyGeminiError "Invalid content structure from Gemini"
      = "Failed to generate video script. Please try again." := by decide

/-- The manual throw for empty text is re-wrapped by the catch block into
the generic failure message. -/
theorem classify_no_content :
    classifyGeminiError "No content generated from Gemini"
      = "Failed to generate video script. Please try again." := by decide

/-! ## Claims -/

/-- Claim C1, counterexample.  With `GEMINI_API_KEY` unset, the server
copy of `generateVideoScript` still issues the backend call (the module
builds the client with an empty key and performs no credential check):
the backend call count is 1, not 0, even though the surfaced error is the
authentication failure (classified from the backend's own rejection). -/
theorem c1_counterexample :
    (generateVideoScriptServer sampleRequest none
      (.throws "API key not valid. Please pass a valid API key.")).backendCalls = 1
    ∧ (generateVideoScriptServer sampleRequest none
        (.throws "API key not valid. Please pass a valid API key.")).result
      = .error "Gemini API key not configured" := by
  exact ⟨rfl, by decide⟩

/-- Claim C1, amended.  When the backend credential is unset, the
serverless copy of `generateVideoScript` fails with the authentication
failure before any backend call (call count 0); the server copy issues
exactly one backend call on every invocation, whatever the credential. -/
theorem c1_credential_check :
    (∀ req backend,
       (generateVideoScriptServerless req none backend).result
         = .error "Gemini API key not configured"
       ∧ (generateVideoScriptServerless req none backend).backendCalls = 0)
  ∧ (∀ req key backend,
       (generateVideoScriptServer req key backend).backendCalls = 1) := by
  exact ⟨fun req backend => ⟨rfl, rfl⟩, fun req key backend => rfl⟩

/-- Claim C2, counterexample.  A JSON payload carrying `title`, `script`
and `scenes` but lacking both `voiceover` and `music` passes the structure
check, and `generateVideoScript` returns it as the artifact instead of
rejecting it. -/
theorem c2_counterexample :
    validStructure sampleNoVoiceMusic = true
    ∧ (generateVideoScriptServer sampleRequest (some "k")
        (.returns (.parsed sampleNoVoiceMusic))).result = .ok sampleNoVoiceMusic := by
  exact ⟨rfl, rfl⟩

/-- Claim C2, amended.  The structure check inspects only `title`
(truthy), `script` (present) and `scenes` (present): any payload with
those three is accepted and returned whatever `voiceover` and `music`
are, and any payload failing the check is rejected with the generic
failure message. -/
theorem c2_structure_check :
    (∀ req key p, truthyStr p.title = true → p.script.isSome = true →
       p.scenes.isSome = true →
       (generateVideoScriptServer req key (.returns (.parsed p))).result = .ok p)
  ∧ (∀ req key p, validStructure p = false →
       (generateVideoScriptServer req key (.returns (.parsed p))).result
         = .error "Failed to generate video script. Please try again.") := by
  constructor
  · intro req key p ht hs hc
    simp [generateVideoScriptServer, innerGenerate, validStructure, ht, hs, hc]
  · intro req key p h
    simp [generateVideoScriptServer, innerGenerate, h, classify_invalid_structure]

/-- Witness for `c2_structure_check` at concrete payloads. -/
theorem c2_structure_check_witness :
    (generateVideoScriptServer sampleRequest (some "k")
       (.returns (.parsed sampleNoVoiceMusic))).result = .ok sampleNoVoiceMusic
    ∧ (generateVideoScriptServer sampleRequest (some "k")
       (.returns (.parsed emptyContent))).result
      = .error "Failed to generate video script. Please try again." :=
  ⟨c2_structure_check.1 sampleRequest (some "k") sampleNoVoiceMusic
      (by decide) (by decide) (by decide),
   c2_structure_check.2 sampleRequest (some "k") emptyContent (by decide)⟩

/-- Claim C3, counterexample.  A successful generation through the
netlify handler answers with the synthetic id `script-` + `Date.now()`;
the serverless module defines no storage, nothing is persisted, and a
lookup of that id in the (untouched) store finds nothing. -/
theorem c3_counterexample :
    netlifyHandler 1234 (some "k") (.returns (.parsed sampleFullContent))
      "POST" (.parsed sampleRawTopicOnly)
      = .success "script-1234" sampleFullContent
    ∧ getVideoScript emptyStorage "script-1234" = none := by
  exact ⟨rfl, rfl⟩

/-- Claim C3, amended.  The express route stores the artifact and answers
with the stored record's id, so a subsequent `getVideoScript` with that
id retrieves exactly the stored record; the netlify handler instead
answers with the timestamp-derived id `script-` + `Date.now()` and no
store exists on that path. -/
theorem c3_success_storage :
    (∀ uuid now key backend raw st data content,
       generateScriptRequestSchemaParse raw = .ok data →
       (generateVideoScriptServer data key backend).result = .ok content →
       (postGenerateScript uuid now key backend raw st).response
         = .success uuid content
       ∧ getVideoScript (postGenerateScript uuid now key backend raw st).store uuid
         = some (createVideoScript uuid now
             ⟨data.topic, some data.videoLength, some data.contentStyle,
              data.targetAudience, some content⟩ st).1)
  ∧ (∀ now key backend raw data content,
       keyFalsy key = false →
       generateScriptRequestSchemaParse raw = .ok data →
       (generateVideoScriptServerless data key backend).result = .ok content →
       netlifyHandler now key backend "POST" (.parsed raw)
         = .success ("script-" ++ toString now) content) := by
  constructor
  · intro uuid now key backend raw st data content hparse hres
    constructor
    · simp [postGenerateScript, hparse, hres, createVideoScript]
    · simp [postGenerateScript, hparse, hres, getVideoScript, createVideoScript,
        mapGet_mapSet]
  · intro now key backend raw data content hkey hparse hres
    simp [netlifyHandler, hkey, hparse, hres]

/-- Witness for `c3_success_storage` at a concrete successful run. -/
theorem c3_success_storage_witness :
    ((postGenerateScript "u1" 5 (some "k") (.returns (.parsed sampleFullContent))
        sampleRawTopicOnly emptyStorage).response
      = .success "u1" sampleFullContent
    ∧ getVideoScript (postGenerateScript "u1" 5 (some "k")
        (.returns (.parsed sampleFullContent)) sampleRawTopicOnly emptyStorage).store "u1"
      = some (createVideoScript "u1" 5
          ⟨ "Cats", some "1-2 minutes", some "Educational", none, some sampleFullContent⟩
          emptyStorage).1)
    ∧ netlifyHandler 99 (some "k") (.returns (.parsed sampleFullContent)) "POST"
        (.parsed sampleRawTopicOnly)
      = .success ("script-" ++ toString 99) sampleFullContent :=
  ⟨c3_success_storage.1 "u1" 5 (some "k") (.returns (.parsed sampleFullContent))
      sampleRawTopicOnly emptyStorage
      ⟨ "Cats", "1-2 minutes", "Educational", none⟩ sampleFullContent rfl rfl,
   c3_success_storage.2 99 (some "k") (.returns (.parsed sampleFullContent))
      sampleRawTopicOnly
      ⟨ "Cats", "1-2 minutes", "Educational", none⟩ sampleFullContent rfl rfl rfl⟩

/-- Claim C4, counterexample.  A whitespace-only topic (a single space)
passes zod validation unchanged (`.min(1)` does not trim), and the
generation client is invoked: the backend call count is 1, not 0. -/
theorem c4_counterexample :
    generateScriptRequestSchemaParse whitespaceRaw
      = .ok ⟨ " ", "1-2 minutes", "Educational", none⟩
    ∧ (postGenerateScript "u1" 0 (some "k")
        (.returns (.parsed sampleFullContent)) whitespaceRaw emptyStorage).backendCalls
      = 1 := by
  exact ⟨rfl, rfl⟩

/-- Claim C4, amended.  A request with `topic` absent or equal to the
empty string yields a 400 validation failure referencing `topic`, with
zero backend calls and the store untouched; but any topic of length at
least one — a whitespace-only topic included — passes validation and the
generation client is invoked (one backend call). -/
theorem c4_topic_check :
    (∀ uuid now key backend vl cs ta st,
       (postGenerateScript uuid now key backend ⟨none, vl, cs, ta⟩ st).response
         = .invalidRequest ⟨ "topic", "Required"⟩
       ∧ (postGenerateScript uuid now key backend ⟨none, vl, cs, ta⟩ st).backendCalls = 0
       ∧ (postGenerateScript uuid now key backend ⟨none, vl, cs, ta⟩ st).store = st)
  ∧ (∀ uuid now key backend vl cs ta st,
       (postGenerateScript uuid now key backend ⟨some "", vl, cs, ta⟩ st).response
         = .invalidRequest ⟨ "topic", "Topic is required"⟩
       ∧ (postGenerateScript uuid now key backend ⟨some "", vl, cs, ta⟩ st).backendCalls
         = 0)
  ∧ (∀ uuid now key backend t vl cs ta st, 1 ≤ t.length →
       (postGenerateScript uuid now key backend ⟨some t, vl, cs, ta⟩ st).backendCalls
         = 1) := by
  refine ⟨fun uuid now key backend vl cs ta st => ⟨rfl, rfl, rfl⟩,
    fun uuid now key backend vl cs ta st => ⟨rfl, rfl⟩, ?_⟩
  intro uuid now key backend t vl cs ta st ht
  have hlen : ¬ t.length < 1 := by omega
  simp only [postGenerateScript, generateScriptRequestSchemaParse, hlen, if_false]
  cases hres : (generateVideoScriptServer
      ⟨t, vl.getD "1-2 minutes", cs.getD "Educational", ta⟩ key backend).result with
  | error msg =>
      by_cases hk : includesSub msg "API key" <;> simp [hres, hk] <;> rfl
  | ok content => simp [hres]; rfl

/-- Witness for `c4_topic_check` at concrete requests. -/
theorem c4_topic_check_witness :
    ((postGenerateScript "u1" 0 (some "k") (.returns (.parsed sampleFullContent))
        ⟨none, none, none, none⟩ emptyStorage).response
      = .invalidRequest ⟨ "topic", "Required"⟩
    ∧ (postGenerateScript "u1" 0 (some "k") (.returns (.parsed sampleFullContent))
        ⟨none, none, none, none⟩ emptyStorage).backendCalls = 0
    ∧ (postGenerateScript "u1" 0 (some "k") (.returns (.parsed sampleFullContent))
        ⟨none, none, none, none⟩ emptyStorage).store = emptyStorage)
    ∧ (postGenerateScript "u1" 0 (some "k") (.returns (.parsed sampleFullContent))
        ⟨some " ", none, none, none⟩ emptyStorage).backendCalls = 1 :=
  ⟨c4_topic_check.1 "u1" 0 (some "k") (.returns (.parsed sampleFullContent))
      none none none emptyStorage,
   c4_topic_check.2.2 "u1" 0 (some "k") (.returns (.parsed sampleFullContent))
      " " none none none emptyStorage (by decide)⟩

/-- Claim C5, counterexample.  An empty backend response, a non-JSON
response and a JSON response failing the structure check all make
`generateVideoScript` fail with the identical generic message: the
failure kinds are not distinct to the caller. -/
theorem c5_counterexample :
    (generateVideoScriptServer sampleRequest (some "k") (.returns .empty)).result
      = .error "Failed to generate video script. Please try again."
    ∧ (generateVideoScriptServer sampleRequest (some "k")
        (.returns (.unparseable "Unexpected token o in JSON at position 1"))).result
      = .error "Failed to generate video script. Please try again."
    ∧ (generateVideoScriptServer sampleRequest (some "k")
        (.returns (.parsed emptyContent))).result
      = .error "Failed to generate video script. Please try again." := by
  exact ⟨rfl, rfl, rfl⟩

/-- Claim C5, amended.  The try block raises distinct intermediate errors
(`No content generated from Gemini` for absent text, the `SyntaxError`
message for non-JSON text, `Invalid content structure from Gemini` for a
failed structure check), but the catch block re-wraps each of them into
the same generic failure — for a parse error, provided its message
mentions none of the sniffed substrings. -/
theorem c5_collapsed_failures :
    (∀ req key, (generateVideoScriptServer req key (.returns .empty)).result
       = .error "Failed to generate video script. Please try again.")
  ∧ (∀ req key m,
       includesSub m "API key" = false → includesSub m "quota" = false →
       includesSub m "billing" = false → includesSub m "rate limit" = false →
       (generateVideoScriptServer req key (.returns (.unparseable m))).result
         = .error "Failed to generate video script. Please try again.")
  ∧ (∀ req key p, validStructure p = false →
       (generateVideoScriptServer req key (.returns (.parsed p))).result
         = .error "Failed to generate video script. Please try again.") := by
  refine ⟨fun req key => rfl, ?_, ?_⟩
  · intro req key m h1 h2 h3 h4
    simp [generateVideoScriptServer, innerGenerate, classifyGeminiError,
      h1, h2, h3, h4]
  · intro req key p h
    simp [generateVideoScriptServer, innerGenerate, h, classify_invalid_structure]

/-- Witness for `c5_collapsed_failures` at concrete backend responses. -/
theorem c5_collapsed_failures_witness :
    (generateVideoScriptServer sampleRequest (some "k") (.returns .empty)).result
      = .error "Failed to generate video script. Please try again."
    ∧ (generateVideoScriptServer sampleRequest (some "k")
        (.returns (.unparseable "Unexpected end of input"))).result
      = .error "Failed to generate video script. Please try again."
    ∧ (generateVideoScriptServer sampleRequest (some "k")
        (.returns (.parsed emptyContent))).result
      = .error "Failed to generate video script. Please try again." :=
  ⟨c5_collapsed_failures.1 sampleRequest (some "k"),
   c5_collapsed_failures.2.1 sampleRequest (some "k") "Unexpected end of input"
      (by decide) (by decide) (by decide) (by decide),
   c5_collapsed_failures.2.2 sampleRequest (some "k") emptyContent (by decide)⟩

/-- Claim C6.  No failure path of the generate route touches the store: if
the response is not a success, the store after the call equals the store
before it; in particular an empty-topic request yields the 400 validation
failure referencing `topic` with the store unchanged. -/
theorem c6_no_partial_persist :
    (∀ uuid now key backend raw st,
       (∀ id content, (postGenerateScript uuid now key backend raw st).response
          ≠ .success id content) →
       (postGenerateScript uuid now key backend raw st).store = st)
  ∧ (∀ uuid now key backend vl cs ta st,
       (postGenerateScript uuid now key backend ⟨some "", vl, cs, ta⟩ st).response
         = .invalidRequest ⟨ "topic", "Topic is required"⟩
       ∧ (postGenerateScript uuid now key backend ⟨some "", vl, cs, ta⟩ st).store
         = st) := by
  constructor
  · intro uuid now key backend raw st hfail
    cases hparse : generateScriptRequestSchemaParse raw with
    | error issue => simp [postGenerateScript, hparse]
    | ok data =>
        cases hres : (generateVideoScriptServer data key backend).result with
        | error msg =>
            by_cases hk : includesSub msg "API key" <;>
              simp [postGenerateScript, hparse, hres, hk]
        | ok content =>
            exfalso
            exact hfail uuid content
              (by simp [postGenerateScript, hparse, hres, createVideoScript])
  · intro uuid now key backend vl cs ta st
    exact ⟨rfl, rfl⟩

/-- Witness for `c6_no_partial_persist` at a concrete failing run. -/
theorem c6_no_partial_persist_witness :
    (postGenerateScript "u1" 7 (some "k") (.throws "boom") sampleRawTopicOnly
        emptyStorage).store = emptyStorage
    ∧ (postGenerateScript "u1" 7 (some "k") (.throws "boom")
        ⟨some "", none, none, none⟩ emptyStorage).response
      = .invalidRequest ⟨ "topic", "Topic is required"⟩ :=
  ⟨c6_no_partial_persist.1 "u1" 7 (some "k") (.throws "boom") sampleRawTopicOnly
      emptyStorage
      (fun id content h => by
        rw [show (postGenerateScript "u1" 7 (some "k") (.throws "boom")
            sampleRawTopicOnly emptyStorage).response
            = PostResponse.genericFailure from rfl] at h
        exact PostResponse.noConfusion h),
   (c6_no_partial_persist.2 "u1" 7 (some "k") (.throws "boom")
      none none none emptyStorage).1⟩

/-- Claim C7.  `createVideoScript` followed by `getVideoScript` with the
returned id yields exactly the created record, whose id is the generated
uuid and whose creation timestamp is the clock reading at creation. -/
theorem c7_roundtrip :
    ∀ uuid now ins st,
      getVideoScript (createVideoScript uuid now ins st).2
          (createVideoScript uuid now ins st).1.id
        = some (createVideoScript uuid now ins st).1
      ∧ (createVideoScript uuid now ins st).1.id = uuid
      ∧ (createVideoScript uuid now ins st).1.createdAt = some now := by
  intro uuid now ins st
  refine ⟨?_, rfl, rfl⟩
  simp [createVideoScript, getVideoScript, mapGet_mapSet]

/-! Fixtures for the listing claim: three records created sequentially
with strictly increasing timestamps. -/

def demoIns (t : String) : InsertVideoScript :=
  ⟨t, some "1-2 minutes", some "Educational", none, none⟩

def demoCreate1 : VideoScript × MemStorage :=
  createVideoScript "id-a" 100 (demoIns "alpha") emptyStorage

def demoCreate2 : VideoScript × MemStorage :=
  createVideoScript "id-b" 200 (demoIns "beta") demoCreate1.2

def demoCreate3 : VideoScript × MemStorage :=
  createVideoScript "id-c" 300 (demoIns "gamma") demoCreate2.2

/-- Claim C8.  With pairwise distinct creation timestamps,
`getRecentVideoScripts(N)` returns a strictly newest-first list of stored
records of length `min N count` (a sub-permutation of the stored values,
and total — it is a function); over the three sequentially created demo
records, limit 2 returns exactly the two most recent, newest first; and
the declared default limit is 10. -/
theorem c8_list_recent :
    (∀ (st : MemStorage) (N : Nat),
       (mapValues st.videoScripts).Pairwise (fun a b => sortKey a ≠ sortKey b) →
       (getRecentVideoScripts st (N : Int)).length
         = min N (mapValues st.videoScripts).length
       ∧ (getRecentVideoScripts st (N : Int)).Pairwise
           (fun a b => sortKey b < sortKey a)
       ∧ List.Subperm (getRecentVideoScripts st (N : Int))
           (mapValues st.videoScripts))
  ∧ getRecentVideoScripts demoCreate3.2 2 = [demoCreate3.1, demoCreate2.1]
  ∧ (∀ st, getRecentVideoScriptsDefault st = getRecentVideoScripts st 10) := by
  refine ⟨?_, rfl, fun st => rfl⟩
  intro st N hdist
  have hperm := List.perm_insertionSort newestFirstRel (mapValues st.videoScripts)
  have hsorted : (List.insertionSort newestFirstRel
      (mapValues st.videoScripts)).Pairwise newestFirstRel :=
    List.sorted_insertionSort newestFirstRel (mapValues st.videoScripts)
  have hdistS : (List.insertionSort newestFirstRel
      (mapValues st.videoScripts)).Pairwise (fun a b => sortKey a ≠ sortKey b) :=
    (hperm.pairwise_iff (fun h e => h e.symm)).mpr hdist
  have hcomb : (List.insertionSort newestFirstRel
      (mapValues st.videoScripts)).Pairwise (fun a b => sortKey b < sortKey a) :=
    (hsorted.and hdistS).imp
      (fun h => Nat.lt_of_le_of_ne h.1 (fun e => h.2 e.symm))
  rw [getRecentVideoScripts, jsSlice_natCast]
  refine ⟨?_, ?_, ?_⟩
  · rw [List.length_take, hperm.length_eq]
  · exact List.Pairwise.sublist (List.take_sublist _ _) hcomb
  · exact (List.take_sublist _ _).subperm.trans hperm.subperm

/-- Witness for `c8_list_recent` at the three-record demo store. -/
theorem c8_list_recent_witness :
    (getRecentVideoScripts demoCreate3.2 ((2 : Nat) : Int)).length
      = min 2 (mapValues demoCreate3.2.videoScripts).length
    ∧ (getRecentVideoScripts demoCreate3.2 ((2 : Nat) : Int)).Pairwise
        (fun a b => sortKey b < sortKey a)
    ∧ List.Subperm (getRecentVideoScripts demoCreate3.2 ((2 : Nat) : Int))
        (mapValues demoCreate3.2.videoScripts) :=
  c8_list_recent.1 demoCreate3.2 2 (by decide)

/-- Claim C9.  A raw request carrying only a non-empty `topic` normalizes
to `videoLength = 1-2 minutes`, `contentStyle = Educational`, and an
absent `targetAudience`. -/
theorem c9_request_defaults :
    ∀ t : String, 1 ≤ t.length →
      generateScriptRequestSchemaParse ⟨some t, none, none, none⟩
        = .ok ⟨t, "1-2 minutes", "Educational", none⟩ := by
  intro t ht
  have hlen : ¬ t.length < 1 := by omega
  simp [generateScriptRequestSchemaParse, hlen]

/-- Witness for `c9_request_defaults` at a concrete topic. -/
theorem c9_request_defaults_witness :
    generateScriptRequestSchemaParse ⟨some "Cats", none, none, none⟩
      = .ok ⟨ "Cats", "1-2 minutes", "Educational", none⟩ :=
  c9_request_defaults "Cats" (by decide)

/-- Claim C10.  `GET /api/video-scripts` computes
`parseInt(req.query.limit) || 10`: an absent parameter, a parameter with
no parseable numeric prefix, and `0` all fall back to the default limit
10 — the route answers with the ten most recent records, not an empty
list or an error. -/
theorem c10_limit_fallback :
    (∀ st, listVideoScriptsRoute st none = getRecentVideoScripts st 10)
  ∧ (∀ st s, parseIntStr s = none →
       listVideoScriptsRoute st (some s) = getRecentVideoScripts st 10)
  ∧ (∀ st, listVideoScriptsRoute st (some "0") = getRecentVideoScripts st 10) := by
  refine ⟨fun st => rfl, ?_, fun st => rfl⟩
  intro st s h
  simp [listVideoScriptsRoute, h]

/-- Witness for `c10_limit_fallback` at a non-numeric query parameter. -/
theorem c10_limit_fallback_witness :
    listVideoScriptsRoute emptyStorage (some "abc")
      = getRecentVideoScripts emptyStorage 10 :=
  c10_limit_fallback.2.1 emptyStorage "abc" (by decide)
